import Mathlib

/-!
Verification of the taiji wallet transaction-service specification against a
shallow embedding of the repository's code.

The repository sample contains the transaction-service wiring
(`base_layer/wallet/src/transaction_service/mod.rs`), the base-node comms
interface tests (`base_layer/core/src/base_node/test/comms_interface.rs`), the
mempool protobuf conversions (`base_layer/core/src/mempool/proto/state_response.rs`)
and the chat FFI callback handler (`base_layer/chat_ffi/src/callback_handler.rs`).
The negotiation state machine, the confirmation monitor, the ledger and the
service-framework reply channel are not part of the sample; where a claim
depends on them they are modelled from the specification, each such definition
carrying a `Modelled from the spec` doc comment.
-/

namespace Taiji

/-! ## Transaction lifecycle model (spec §3, §4.2)

Modelled from the spec: the Negotiation State Machine and the Transaction
Ledger live in `transaction_service/service.rs`, `protocols/` and `storage/`,
which are not in the sample; the status set, directions and transition rules
below follow the table and rules of spec §4.2 and the data model of §3. -/

/-- Transaction statuses, spec §4.2 state table. -/
inductive TxStatus where
  | initiated
  | pendingReply
  | negotiated
  | pendingFinalization
  | finalized
  | broadcast
  | minedUnconfirmed
  | minedConfirmed
  | cancelled
  | timedOut
deriving DecidableEq, Repr

/-- Direction of a transaction record, spec §3. -/
inductive Direction where
  | outbound
  | inbound
  | oneSided
deriving DecidableEq, Repr

/-- `Broadcast` or a later mined status (stale-duplicate window of §4.2). -/
def TxStatus.atLeastBroadcast : TxStatus → Bool
  | .broadcast => true
  | .minedUnconfirmed => true
  | .minedConfirmed => true
  | _ => false

/-- `Finalized` or a later status (idempotence window for finalization). -/
def TxStatus.atLeastFinalized : TxStatus → Bool
  | .finalized => true
  | .broadcast => true
  | .minedUnconfirmed => true
  | .minedConfirmed => true
  | _ => false

/-- Terminal statuses of the §4.2 table: `MinedConfirmed` and `Cancelled`. -/
def TxStatus.isTerminal : TxStatus → Bool
  | .minedConfirmed => true
  | .cancelled => true
  | _ => false

/-- A Transaction Record (spec §3); fields not used by any transition rule
(counterparty, note, protocol payload, timestamps) are elided. -/
structure TxRecord where
  id : Nat
  direction : Direction
  status : TxStatus
  amount : Nat
  fee : Nat
  reorgCount : Nat
  flaggedForReview : Bool
deriving DecidableEq, Repr

/-- The Transaction Ledger: the durable table of records keyed by id. -/
abbrev Ledger := List TxRecord

/-- Look a record up by transaction id. -/
def lookupTx (led : Ledger) (txId : Nat) : Option TxRecord :=
  List.find? (fun r => r.id = txId) led

/-- Replace the status of the record with the given id. -/
def updateStatus (led : Ledger) (txId : Nat) (st : TxStatus) : Ledger :=
  List.map (fun r => if r.id = txId then { r with status := st } else r) led

/-- Inbound protocol messages, spec §6 message kinds (sender partial
transaction, receiver signed reply, finalization, cancellation). -/
inductive InboundMsg where
  | senderMsg (txId : Nat) (amount : Nat)
  | replyMsg (txId : Nat)
  | finalizeMsg (txId : Nat)
  | cancelMsg (txId : Nat)
deriving DecidableEq, Repr

/-- Outcome of processing one inbound message: applied, acknowledged as a
stale-duplicate no-op, or rejected. -/
inductive HandleOutcome where
  | accepted
  | ackNoOp
  | rejected
deriving DecidableEq, Repr

/-- Fan-out notification published on a status change, spec §3 Event. -/
inductive TxEvent where
  | statusChanged (txId : Nat) (newStatus : TxStatus)
deriving DecidableEq, Repr

/-- Result of one state-machine step: outcome, new ledger, published events. -/
structure HandleResult where
  outcome : HandleOutcome
  ledger : Ledger
  events : List TxEvent
deriving DecidableEq

/-- Modelled from the spec: the Negotiation State Machine step of §4.2
(`transaction_service/service.rs`, not in the sample). A sender message for a
fresh id creates an inbound record in `PendingFinalization`; a reply moves
`Initiated`/`PendingReply` to `Negotiated`; a finalization moves
`PendingFinalization` to `Finalized`; a reply or finalization on a record in
`Broadcast` or later (for finalization, `Finalized` or later) is a stale
duplicate acknowledged as a no-op; a cancellation is rejected on
`MinedConfirmed` and otherwise moves the record to `Cancelled`; any other
message on an unknown id is rejected and creates nothing. -/
def handleMessage (led : Ledger) (msg : InboundMsg) : HandleResult :=
  match msg with
  | .senderMsg txId amount =>
    match lookupTx led txId with
    | some _ => ⟨.rejected, led, []⟩
    | none =>
      let r : TxRecord :=
        { id := txId, direction := .inbound, status := .pendingFinalization,
          amount := amount, fee := 0, reorgCount := 0, flaggedForReview := false }
      ⟨.accepted, led ++ [r], [.statusChanged txId .pendingFinalization]⟩
  | .replyMsg txId =>
    match lookupTx led txId with
    | none => ⟨.rejected, led, []⟩
    | some r =>
      if r.status = .initiated ∨ r.status = .pendingReply then
        ⟨.accepted, updateStatus led txId .negotiated, [.statusChanged txId .negotiated]⟩
      else if r.status.atLeastBroadcast then ⟨.ackNoOp, led, []⟩
      else ⟨.rejected, led, []⟩
  | .finalizeMsg txId =>
    match lookupTx led txId with
    | none => ⟨.rejected, led, []⟩
    | some r =>
      if r.status = .pendingFinalization then
        ⟨.accepted, updateStatus led txId .finalized, [.statusChanged txId .finalized]⟩
      else if r.status.atLeastFinalized then ⟨.ackNoOp, led, []⟩
      else ⟨.rejected, led, []⟩
  | .cancelMsg txId =>
    match lookupTx led txId with
    | none => ⟨.rejected, led, []⟩
    | some r =>
      if r.status = .minedConfirmed then ⟨.rejected, led, []⟩
      else ⟨.accepted, updateStatus led txId .cancelled, [.statusChanged txId .cancelled]⟩

/-- Cancellation error of the API surface, spec §6. -/
inductive CancelError where
  | notCancellable
deriving DecidableEq, Repr

/-- Modelled from the spec: the Handle's `cancel(transaction_id)` call (§6),
which per §5 is just another cancellation message injected into the event
loop; a rejected cancellation surfaces as a `NotCancellable` error. -/
def apiCancel (led : Ledger) (txId : Nat) : Except CancelError Ledger :=
  let res := handleMessage led (.cancelMsg txId)
  if res.outcome = .rejected then .error .notCancellable else .ok res.ledger

/-- Confirmation-monitor policy knobs, spec §4.3: the required confirmation
depth and the reorg-rollback cap before manual review. -/
structure MonitorConfig where
  requiredConfirmations : Nat
  maxReorgs : Nat
deriving DecidableEq, Repr

/-- Result of one kernel-existence query for a pending record, spec §4.3. -/
inductive KernelQueryResult where
  | found (depth : Nat)
  | notFound
  | queryError
deriving DecidableEq, Repr

/-- Modelled from the spec: one Confirmation Monitor folding step (§4.3, the
monitor is not in the sample). A kernel found at depth ≥ required
confirmations yields `MinedConfirmed`; found shallower yields
`MinedUnconfirmed`; not found when previously `MinedUnconfirmed` rolls back
to `Broadcast` and increments the reorg counter, flagging the record for
manual review once the counter reaches the cap; a flagged record is left for
manual review and never auto-retried; a query error changes nothing. -/
def monitorStep (cfg : MonitorConfig) (r : TxRecord) (q : KernelQueryResult) : TxRecord :=
  if r.flaggedForReview then r
  else
    match q with
    | .queryError => r
    | .found depth =>
      if cfg.requiredConfirmations ≤ depth then { r with status := .minedConfirmed }
      else { r with status := .minedUnconfirmed }
    | .notFound =>
      if r.status = .minedUnconfirmed then
        { r with
          status := .broadcast
          reorgCount := r.reorgCount + 1
          flaggedForReview := decide (cfg.maxReorgs ≤ r.reorgCount + 1) }
      else r

/-! ## Base-node comms interface (spec §2.2, §6; `base_node/test/comms_interface.rs`)

The tests of `comms_interface.rs` are in the sample; the
`InboundNodeCommsInterface::handle_request` / `OutboundNodeCommsInterface`
implementations and the service framework's `reply_channel` are not, so they
are modelled from the spec and from the behaviour the tests pin down. -/

/-- Errors of the comms interface (`CommsInterfaceError`); the claims only
need failure to be representable, not its precise taxonomy. -/
inductive CommsInterfaceError where
  | requestTimedOut
  | channelClosed
deriving DecidableEq, Repr

/-- Look an item up by its key (hash or height) in a keyed store. -/
def lookupByKey {α : Type} (store : List (Nat × α)) (k : Nat) : Option α :=
  (List.find? (fun e => e.1 = k) store).map (fun e => e.2)

/-- Modelled from the spec: the inbound handler for the batched fetch queries
(`FetchKernels`, `FetchUtxos`, `FetchHeaders`, `FetchBlocks` of
`InboundNodeCommsInterface::handle_request`, not in the sample). Per spec §3
and §6 the response is keyed to the requested identifiers with an
order-preserving mapping, an absent item is omitted rather than reported as
an error, and an empty response list is a successful response. -/
def handleFetchRequest {α : Type} (store : List (Nat × α)) (keys : List Nat) :
    Except CommsInterfaceError (List α) :=
  .ok (keys.filterMap (lookupByKey store))

/-- Chain metadata as built by the tests
(`ChainMetadata::new(height, best_block, accumulated_difficulty,
pruning_horizon)`). -/
structure ChainMetadataModel where
  height : Nat
  bestBlock : List Nat
  accumulatedDifficulty : Nat
  pruningHorizon : Nat
deriving DecidableEq, Repr

/-- The response variants of the base-node comms interface exercised by the
sampled tests (`NodeCommsResponse`); kernels, headers and blocks are
abstracted to their identifiers. -/
inductive NodeCommsResponse where
  | chainMetadata (m : ChainMetadataModel)
  | transactionKernels (ks : List Nat)
  | blockHeaders (hs : List Nat)
deriving DecidableEq, Repr

/-- Modelled from the spec: the service framework's `reply_channel` pairs
each request with a fresh one-shot reply slot; of all replies the responder
attempts to send, the caller is delivered at most the first
(`taiji_service_framework::reply_channel`, not in the sample). -/
def oneshotReceive {α : Type} (attempts : List α) : Option α := attempts.head?

/-- Extract the chain-metadata payload of one response variant. -/
def extractMetadata : NodeCommsResponse → Option ChainMetadataModel
  | .chainMetadata m => some m
  | _ => none

/-- Modelled from the spec: `OutboundNodeCommsInterface::get_metadata` (not
in the sample) sends one `GetChainMetadata` request over the reply channel
and returns every `ChainMetadata` item carried by the single delivered reply
— the `outbound_get_metadata` test pins this down by receiving two metadata
items from one query. No delivered reply surfaces as an error. -/
def get_metadata
    (attempts : List (Except CommsInterfaceError (List NodeCommsResponse))) :
    Except CommsInterfaceError (List ChainMetadataModel) :=
  match oneshotReceive attempts with
  | none => .error .channelClosed
  | some (.error e) => .error e
  | some (.ok resps) => .ok (resps.filterMap extractMetadata)

/-- The two metadata values of the `outbound_get_metadata` test:
`ChainMetadata::new(5, vec![0u8], 2.into(), 3)` and
`ChainMetadata::new(6, vec![1u8], 3.into(), 4)`. -/
def wMeta1 : ChainMetadataModel := ⟨5, [0], 2, 3⟩

/-- Second metadata value of the `outbound_get_metadata` test. -/
def wMeta2 : ChainMetadataModel := ⟨6, [1], 3, 4⟩

/-- The responder of the `outbound_get_metadata` test: one reply carrying
two `ChainMetadata` response items. -/
def wMetadataAttempts : List (Except CommsInterfaceError (List NodeCommsResponse)) :=
  [Except.ok [.chainMetadata wMeta1, .chainMetadata wMeta2]]

/-! ## Message Channel Adapter (spec §4.1; `transaction_service/mod.rs`) -/

/-- A message as delivered from the comms layer: sender identity paired with
a payload (`DomainMessage` of `taiji_p2p`). -/
structure DomainMessage (α : Type) where
  sender : Nat
  payload : α
deriving DecidableEq, Repr

/-- Protobuf decode failure (`prost::DecodeError`). -/
inductive DecodeError where
  | invalidWireFormat
deriving DecidableEq, Repr

/-- Modelled from the spec: `map_decode` of
`taiji_p2p::services::utils` (not in the sample), applied by every
subscription stream of `TransactionServiceInitializer` (`transaction_stream`,
`transaction_reply_stream`, `transaction_finalized_stream`,
`base_node_response_stream`, `transaction_cancelled_stream`): each raw
message is mapped in place to the same sender paired with the decode result,
so a decode failure is yielded as an error variant in the stream rather than
dropped. -/
def map_decode {μ : Type} (decode : List Nat → Except DecodeError μ)
    (msgs : List (DomainMessage (List Nat))) :
    List (DomainMessage (Except DecodeError μ)) :=
  msgs.map (fun m => ⟨m.sender, decode m.payload⟩)

/-- A sample decoder for witnesses: rejects an empty payload, otherwise
returns its length. -/
def wDecode : List Nat → Except DecodeError Nat :=
  fun bs => if bs.isEmpty then .error .invalidWireFormat else .ok bs.length

/-- Concrete record in `MinedConfirmed`, used by witnesses (spec §8 scenario:
id 42, amount 10000, fee 50, outbound). -/
def wRecMined : TxRecord :=
  { id := 42, direction := .outbound, status := .minedConfirmed,
    amount := 10000, fee := 50, reorgCount := 0, flaggedForReview := false }

/-- Concrete inbound record in `Broadcast`, used by witnesses. -/
def wRecBroadcast : TxRecord :=
  { id := 7, direction := .inbound, status := .broadcast,
    amount := 500, fee := 0, reorgCount := 0, flaggedForReview := false }

/-- Concrete inbound record in `PendingFinalization`, used by witnesses. -/
def wRecPendingFin : TxRecord :=
  { id := 9, direction := .inbound, status := .pendingFinalization,
    amount := 250, fee := 0, reorgCount := 0, flaggedForReview := false }

/-- Concrete record in `MinedUnconfirmed` with two reorg rollbacks already
counted, used by witnesses. -/
def wRecUnconfirmed : TxRecord :=
  { id := 11, direction := .outbound, status := .minedUnconfirmed,
    amount := 800, fee := 25, reorgCount := 2, flaggedForReview := false }

/-- Concrete ledger used by witnesses. -/
def wLedger : Ledger := [wRecMined, wRecBroadcast, wRecPendingFin]

/-! ## Transaction service initialization
(`TransactionServiceInitializer` in `transaction_service/mod.rs`) -/

/-- Message topics the transaction service subscribes to
(`TaijiMessageType`). -/
inductive MsgTopic where
  | senderPartialTransaction
  | receiverPartialTransactionReply
  | transactionFinalized
  | baseNodeResponse
  | transactionCancelled
deriving DecidableEq, Repr

/-- Handles the transaction service retrieves from the registry inside
`spawn_when_ready` (`handles.expect_handle::<...>()`). -/
inductive DepHandle where
  | dht
  | outputManager
  | keyManager
  | connectivity
  | baseNodeService
deriving DecidableEq, Repr

/-- Resources taken out of the initializer (`self.tx_backend.take()`,
`self.wallet_database.take()`). -/
inductive InitResource where
  | txBackend
  | walletDatabase
deriving DecidableEq, Repr

/-- One step of `TransactionServiceInitializer::initialize`. -/
inductive InitStep where
  | createReplyChannel
  | createStream (topic : MsgTopic)
  | createEventPublisher
  | createHandle
  | registerHandle
  | takeResource (res : InitResource)
  | expectHandle (dep : DepHandle)
  | startService
deriving DecidableEq, Repr

/-- Whether a step is a dependency-handle retrieval. -/
def isExpectStep : InitStep → Bool
  | .expectHandle _ => true
  | _ => false

/-- The steps of `TransactionServiceInitializer::initialize`
(`transaction_service/mod.rs`, lines 200–268) in execution order: the body
runs down to `spawn_when_ready`, whose closure runs once every service is
registered — its five `expect_handle` calls and the final
`TransactionService::new(...).start()` therefore execute after
`register_handle` and in the closure's own order. -/
def initTrace : List InitStep :=
  [ .createReplyChannel,
    .createStream .senderPartialTransaction,
    .createStream .receiverPartialTransactionReply,
    .createStream .transactionFinalized,
    .createStream .baseNodeResponse,
    .createStream .transactionCancelled,
    .createEventPublisher,
    .createHandle,
    .registerHandle,
    .takeResource .txBackend,
    .takeResource .walletDatabase,
    .expectHandle .dht,
    .expectHandle .outputManager,
    .expectHandle .keyManager,
    .expectHandle .connectivity,
    .expectHandle .baseNodeService,
    .startService ]

/-! ## Mempool protobuf conversions (`mempool/proto/state_response.rs`) -/

/-- Modelled from the spec: the byte encoding of a Ristretto key
(`tari_crypto`'s `ByteArray::to_vec`, not in the sample). Keys are
abstracted to naturals and the encoding to canonical base-256 digits; it is
injective, as the compressed-point and canonical-scalar encodings are. -/
def keyToBytes (k : Nat) : List Nat := Nat.digits 256 k

/-- Modelled from the spec: `ByteArray::from_bytes` (not in the sample):
decodes a byte string, rejecting non-canonical encodings, and inverts
`keyToBytes`. -/
def keyFromBytes (bs : List Nat) : Option Nat :=
  let n := Nat.ofDigits 256 bs
  if Nat.digits 256 n = bs then some n else none

/-- A Schnorr signature as used by the mempool state response: a public
nonce and a signature scalar (`tari_common_types::types::Signature`),
abstracted to the key model above. -/
structure Signature where
  public_nonce : Nat
  signature : Nat
deriving DecidableEq, Repr

/-- The protobuf form of a signature: two byte strings
(`proto::mempool::Signature`). -/
structure ProtoSignature where
  public_nonce : List Nat
  signature : List Nat
deriving DecidableEq, Repr

/-- `TryFrom<ProtoSignature> for Signature`: decode both byte fields, any
failure failing the whole conversion. -/
def signature_try_from (p : ProtoSignature) : Option Signature :=
  match keyFromBytes p.public_nonce, keyFromBytes p.signature with
  | some pn, some s => some ⟨pn, s⟩
  | _, _ => none

/-- `From<Signature> for ProtoSignature`: encode both fields to bytes. -/
def signature_to_proto (s : Signature) : ProtoSignature :=
  ⟨keyToBytes s.public_nonce, keyToBytes s.signature⟩

/-- `.map(TryInto::try_into).collect::<Result<Vec<_>, _>>()`: convert each
element, the first failure failing the whole list. -/
def tryConvertList {α β : Type} (f : α → Option β) : List α → Option (List β)
  | [] => some []
  | x :: xs =>
    match f x, tryConvertList f xs with
    | some y, some ys => some (y :: ys)
    | _, _ => none

/-- The mempool state response: unconfirmed pool and reorg pool of
signatures (`mempool::StateResponse`). -/
structure StateResponse where
  unconfirmed_pool : List Signature
  reorg_pool : List Signature
deriving DecidableEq, Repr

/-- The protobuf form of the state response
(`proto::mempool::StateResponse`). -/
structure ProtoStateResponse where
  unconfirmed_pool : List ProtoSignature
  reorg_pool : List ProtoSignature
deriving DecidableEq, Repr

/-- `TryFrom<ProtoStateResponse> for StateResponse`: convert both pools
elementwise, any failure failing the conversion. -/
def state_response_try_from (p : ProtoStateResponse) : Option StateResponse :=
  match tryConvertList signature_try_from p.unconfirmed_pool,
        tryConvertList signature_try_from p.reorg_pool with
  | some u, some r => some ⟨u, r⟩
  | _, _ => none

/-- `From<StateResponse> for ProtoStateResponse`: convert both pools
elementwise. -/
def state_response_to_proto (s : StateResponse) : ProtoStateResponse :=
  ⟨s.unconfirmed_pool.map signature_to_proto, s.reorg_pool.map signature_to_proto⟩

/-! ## Chat FFI message conversion (`chat_ffi/src/callback_handler.rs`) -/

/-- A chat message as handed to the FFI bridge
(`taiji_contacts::...::Message`); the address is represented by its byte
form (`v.address.to_bytes()`), body and message id by their bytes. -/
structure Message where
  body : List Nat
  addressBytes : List Nat
  message_id : List Nat
  stored_at : Nat
deriving DecidableEq, Repr

/-- `CString::new`: fails exactly when the byte string contains an interior
NUL byte, and otherwise preserves the bytes. -/
def cstring_new (bs : List Nat) : Option (List Nat) :=
  if 0 ∈ bs then none else some bs

/-- The C-compatible message struct (`ChatFFIMessage`); the `*const c_char`
fields are represented by the NUL-free byte strings they point at. -/
structure ChatFFIMessage where
  body : List Nat
  from_address : List Nat
  stored_at : Nat
  message_id : List Nat
deriving DecidableEq, Repr

/-- `ChatFFIMessage::try_from(message)`: build C strings from the body, the
address bytes and the message id in that order, failing on the first
interior NUL; on success `stored_at` is copied over unchanged. -/
def chat_ffi_message_try_from (v : Message) : Option ChatFFIMessage :=
  match cstring_new v.body with
  | none => none
  | some b =>
    match cstring_new v.addressBytes with
    | none => none
    | some a =>
      match cstring_new v.message_id with
      | none => none
      | some i => some ⟨b, a, v.stored_at, i⟩

/-- Concrete NUL-free chat message used by witnesses. -/
def wMsg : Message := ⟨[104, 105], [1, 2], [109, 49], 77⟩

/-- The FFI struct `wMsg` converts to. -/
def wFFIMsg : ChatFFIMessage := ⟨[104, 105], [1, 2], 77, [109, 49]⟩

theorem lookupTx_updateStatus_self (led : Ledger) (txId : Nat) (st : TxStatus) :
    lookupTx (updateStatus led txId st) txId =
      (lookupTx led txId).map (fun r => { r with status := st }) := by
  induction led with
  | nil => rfl
  | cons r rs ih =>
    by_cases h : r.id = txId
    · simp [lookupTx, updateStatus, List.find?, h]
    · simpa [lookupTx, updateStatus, List.find?, h] using ih

theorem filterMap_all_isSome_getElem? {α β : Type} (f : α → Option β) (l : List α)
    (h : ∀ x ∈ l, (f x).isSome = true) (i : Nat) :
    (l.filterMap f)[i]? = (l[i]?).bind f := by
  induction l generalizing i with
  | nil => simp
  | cons x xs ih =>
    obtain ⟨y, hy⟩ := Option.isSome_iff_exists.mp (h x (List.mem_cons_self x xs))
    have hxs : ∀ z ∈ xs, (f z).isSome = true := fun z hz => h z (List.mem_cons_of_mem x hz)
    cases i with
    | zero => simp [List.filterMap_cons, hy]
    | succ j => simp [List.filterMap_cons, hy, ih hxs j]

theorem filterMap_all_isSome_length {α β : Type} (f : α → Option β) (l : List α)
    (h : ∀ x ∈ l, (f x).isSome = true) : (l.filterMap f).length = l.length := by
  induction l with
  | nil => rfl
  | cons x xs ih =>
    obtain ⟨y, hy⟩ := Option.isSome_iff_exists.mp (h x (List.mem_cons_self x xs))
    have hxs : ∀ z ∈ xs, (f z).isSome = true := fun z hz => h z (List.mem_cons_of_mem x hz)
    simp [List.filterMap_cons, hy, ih hxs]

/-- C1: an inbound reply, finalization or cancellation message whose
transaction id matches no ledger record is rejected, creates no record and
leaves the ledger unchanged (in particular its size); only a sender message
creates a new inbound record for a fresh id. -/
theorem unknown_id_rejected (led : Ledger) (txId amount : Nat)
    (h : lookupTx led txId = none) :
    handleMessage led (.replyMsg txId) = ⟨.rejected, led, []⟩ ∧
    handleMessage led (.finalizeMsg txId) = ⟨.rejected, led, []⟩ ∧
    handleMessage led (.cancelMsg txId) = ⟨.rejected, led, []⟩ ∧
    (handleMessage led (.senderMsg txId amount)).outcome = .accepted ∧
    (handleMessage led (.senderMsg txId amount)).ledger.length = led.length + 1 := by
  refine ⟨?_, ?_, ?_, ?_, ?_⟩ <;> simp [handleMessage, h]

/-- C1 witness: at the concrete ledger `wLedger`, id 5 is unknown and every
non-sender message about it is rejected without touching the ledger. -/
theorem unknown_id_rejected_witness :
    handleMessage wLedger (.replyMsg 5) = ⟨.rejected, wLedger, []⟩ ∧
    handleMessage wLedger (.finalizeMsg 5) = ⟨.rejected, wLedger, []⟩ ∧
    handleMessage wLedger (.cancelMsg 5) = ⟨.rejected, wLedger, []⟩ ∧
    (handleMessage wLedger (.senderMsg 5 10000)).outcome = .accepted ∧
    (handleMessage wLedger (.senderMsg 5 10000)).ledger.length = wLedger.length + 1 :=
  unknown_id_rejected wLedger 5 10000 (by decide)

/-- C2: a cancel request (protocol message, or the API `cancel` which per
spec §5 is the same message injected into the event loop) on a record in
`MinedConfirmed` is rejected with `NotCancellable` and changes nothing; on a
record that is neither `MinedConfirmed` nor already `Cancelled`, the
cancellation message is accepted and moves the record to `Cancelled`,
whatever its direction. -/
theorem cancel_rules (led : Ledger) (txId : Nat) (r : TxRecord)
    (hfind : lookupTx led txId = some r) :
    (r.status = .minedConfirmed →
      handleMessage led (.cancelMsg txId) = ⟨.rejected, led, []⟩ ∧
      apiCancel led txId = .error .notCancellable) ∧
    (r.status ≠ .minedConfirmed → r.status ≠ .cancelled →
      (handleMessage led (.cancelMsg txId)).outcome = .accepted ∧
      lookupTx (handleMessage led (.cancelMsg txId)).ledger txId =
        some { r with status := .cancelled }) := by
  constructor
  · intro hst
    constructor
    · simp [handleMessage, hfind, hst]
    · simp [apiCancel, handleMessage, hfind, hst]
  · intro h1 _h2
    constructor
    · simp [handleMessage, hfind, h1]
    · simp only [handleMessage, hfind, if_neg h1]
      rw [lookupTx_updateStatus_self, hfind]
      rfl

/-- C2 witness: in `wLedger`, cancelling record 42 (`MinedConfirmed`) is
rejected and `apiCancel` returns `NotCancellable`, while cancelling record 7
(`Broadcast`, inbound) is accepted and lands in `Cancelled`. -/
theorem cancel_rules_witness :
    (handleMessage wLedger (.cancelMsg 42) = ⟨.rejected, wLedger, []⟩ ∧
      apiCancel wLedger 42 = .error .notCancellable) ∧
    ((handleMessage wLedger (.cancelMsg 7)).outcome = .accepted ∧
      lookupTx (handleMessage wLedger (.cancelMsg 7)).ledger 7 =
        some { wRecBroadcast with status := .cancelled }) :=
  ⟨(cancel_rules wLedger 42 wRecMined (by decide)).1 (by decide),
   (cancel_rules wLedger 7 wRecBroadcast (by decide)).2 (by decide) (by decide)⟩

/-- C3: a finalization message for a record already in `Finalized` or later,
and a reply or finalization message for a record in `Broadcast` or later,
are acknowledged as stale-duplicate no-ops — the ledger is unchanged and no
event is published; in particular, after a finalization is applied to a
`PendingFinalization` record, delivering the same finalization again is a
no-op with no second transition and no duplicate event. -/
theorem stale_duplicate_noop (led : Ledger) (txId : Nat) (r : TxRecord)
    (hfind : lookupTx led txId = some r) :
    (r.status.atLeastFinalized = true →
      handleMessage led (.finalizeMsg txId) = ⟨.ackNoOp, led, []⟩) ∧
    (r.status.atLeastBroadcast = true →
      handleMessage led (.replyMsg txId) = ⟨.ackNoOp, led, []⟩ ∧
      handleMessage led (.finalizeMsg txId) = ⟨.ackNoOp, led, []⟩) ∧
    (r.status = .pendingFinalization →
      handleMessage (handleMessage led (.finalizeMsg txId)).ledger (.finalizeMsg txId) =
        ⟨.ackNoOp, (handleMessage led (.finalizeMsg txId)).ledger, []⟩) := by
  refine ⟨?_, ?_, ?_⟩
  · intro hst
    cases h : r.status <;> rw [h] at hst <;> simp_all [handleMessage, hfind,
      TxStatus.atLeastFinalized]
  · intro hst
    cases h : r.status <;> rw [h] at hst <;> simp_all [handleMessage, hfind,
      TxStatus.atLeastBroadcast, TxStatus.atLeastFinalized]
  · intro hst
    have hlk : lookupTx (updateStatus led txId .finalized) txId =
        some { r with status := .finalized } := by
      rw [lookupTx_updateStatus_self, hfind]; rfl
    simp [handleMessage, hfind, hst, hlk, TxStatus.atLeastFinalized]

/-- C3 witness: in `wLedger`, record 7 is in `Broadcast` so reply and
finalization messages for id 7 are acknowledged no-ops, and a second
finalization of record 9 (`PendingFinalization`) after the first is a no-op. -/
theorem stale_duplicate_noop_witness :
    (handleMessage wLedger (.replyMsg 7) = ⟨.ackNoOp, wLedger, []⟩ ∧
      handleMessage wLedger (.finalizeMsg 7) = ⟨.ackNoOp, wLedger, []⟩) ∧
    handleMessage (handleMessage wLedger (.finalizeMsg 9)).ledger (.finalizeMsg 9) =
      ⟨.ackNoOp, (handleMessage wLedger (.finalizeMsg 9)).ledger, []⟩ :=
  ⟨(stale_duplicate_noop wLedger 7 wRecBroadcast (by decide)).2.1 (by decide),
   (stale_duplicate_noop wLedger 9 wRecPendingFin (by decide)).2.2 (by decide)⟩

theorem monitorStep_flagged (cfg : MonitorConfig) (r : TxRecord) (q : KernelQueryResult)
    (h : r.flaggedForReview = true) : monitorStep cfg r q = r := by
  simp [monitorStep, h]

/-- C4: when the kernel-existence query reports the kernel absent for an
unflagged record in `MinedUnconfirmed`, the Confirmation Monitor moves it
back to `Broadcast` and increments its reorg counter by exactly one; the
counter is capped — the record is flagged for manual review exactly when the
counter reaches `maxReorgs`, and a flagged record is never auto-retried
(every further monitor step leaves it unchanged). -/
theorem reorg_rollback (cfg : MonitorConfig) (r : TxRecord)
    (hst : r.status = .minedUnconfirmed) (hfl : r.flaggedForReview = false) :
    (monitorStep cfg r .notFound).status = .broadcast ∧
    (monitorStep cfg r .notFound).reorgCount = r.reorgCount + 1 ∧
    ((monitorStep cfg r .notFound).flaggedForReview = true ↔
      cfg.maxReorgs ≤ r.reorgCount + 1) ∧
    (∀ q : KernelQueryResult, (monitorStep cfg r .notFound).flaggedForReview = true →
      monitorStep cfg (monitorStep cfg r .notFound) q = monitorStep cfg r .notFound) := by
  refine ⟨?_, ?_, ?_, ?_⟩
  · simp [monitorStep, hst, hfl]
  · simp [monitorStep, hst, hfl]
  · simp [monitorStep, hst, hfl]
  · intro q hq
    exact monitorStep_flagged cfg _ q hq

/-- C4 witness: with a cap of 3 reorgs, the record `wRecUnconfirmed`
(`MinedUnconfirmed`, counter 2) rolls back to `Broadcast` with counter 3,
is flagged for review, and every further monitor step leaves it unchanged. -/
theorem reorg_rollback_witness :
    (monitorStep ⟨3, 3⟩ wRecUnconfirmed .notFound).status = .broadcast ∧
    (monitorStep ⟨3, 3⟩ wRecUnconfirmed .notFound).reorgCount =
      wRecUnconfirmed.reorgCount + 1 ∧
    ((monitorStep ⟨3, 3⟩ wRecUnconfirmed .notFound).flaggedForReview = true ↔
      (3 : Nat) ≤ wRecUnconfirmed.reorgCount + 1) ∧
    monitorStep ⟨3, 3⟩ (monitorStep ⟨3, 3⟩ wRecUnconfirmed .notFound) .notFound =
      monitorStep ⟨3, 3⟩ wRecUnconfirmed .notFound :=
  ⟨(reorg_rollback ⟨3, 3⟩ wRecUnconfirmed (by decide) (by decide)).1,
   (reorg_rollback ⟨3, 3⟩ wRecUnconfirmed (by decide) (by decide)).2.1,
   (reorg_rollback ⟨3, 3⟩ wRecUnconfirmed (by decide) (by decide)).2.2.1,
   (reorg_rollback ⟨3, 3⟩ wRecUnconfirmed (by decide) (by decide)).2.2.2
     .notFound (by decide)⟩

/-- C5: a batched fetch query over an ordered identifier list answers with a
successful response list that, when every requested item is present, matches
the request list in length and order — `response[i]` is the stored item for
`request[i]` — while, for any store and key list whatsoever, an absent item
is merely omitted from the (still successful) response, so an empty response
list is a successful response, never an error. -/
theorem fetch_response_matches_request {α : Type} (store : List (Nat × α))
    (keys : List Nat)
    (hall : ∀ k ∈ keys, (lookupByKey store k).isSome = true) :
    handleFetchRequest store keys = .ok (keys.filterMap (lookupByKey store)) ∧
    (keys.filterMap (lookupByKey store)).length = keys.length ∧
    (∀ i : Nat, (keys.filterMap (lookupByKey store))[i]? =
      (keys[i]?).bind (lookupByKey store)) ∧
    (∀ (store2 : List (Nat × α)) (keys2 : List Nat),
      handleFetchRequest store2 keys2 = .ok (keys2.filterMap (lookupByKey store2))) := by
  refine ⟨rfl, ?_, ?_, fun _ _ => rfl⟩
  · exact filterMap_all_isSome_length (lookupByKey store) keys hall
  · exact fun i => filterMap_all_isSome_getElem? (lookupByKey store) keys hall i

/-- C5 witness: for the store with hashes 1, 2 bound to items 10, 20 and the
request list [2, 1], the response is `.ok [20, 10]` — same length, same
order; the unknown hash 3 is omitted, leaving the successful empty response. -/
theorem fetch_response_matches_request_witness :
    (handleFetchRequest [(1, 10), (2, 20)] [2, 1] =
      Except.ok (([2, 1] : List Nat).filterMap (lookupByKey [(1, 10), (2, 20)])) ∧
      (([2, 1] : List Nat).filterMap (lookupByKey [(1, 10), (2, 20)])).length =
        ([2, 1] : List Nat).length) ∧
    ([2, 1] : List Nat).filterMap (lookupByKey [(1, 10), (2, 20)]) = [20, 10] ∧
    handleFetchRequest [(1, 10), (2, 20)] [3] = Except.ok ([] : List Nat) :=
  ⟨⟨(fetch_response_matches_request [(1, 10), (2, 20)] [2, 1] (by decide)).1,
    (fetch_response_matches_request [(1, 10), (2, 20)] [2, 1] (by decide)).2.1⟩,
   rfl, rfl⟩

/-- C6 counterexample: the responder of the `outbound_get_metadata` test
answers the single chain-metadata query with the two metadata values
`wMeta1`, `wMeta2`, and the caller receives both — two correlated responses
for one query, not exactly one. -/
theorem get_metadata_two_correlated_responses :
    get_metadata wMetadataAttempts = Except.ok [wMeta1, wMeta2] ∧
    [wMeta1, wMeta2].length ≠ 1 := by
  constructor
  · rfl
  · decide

/-- C6 (amended): each query is paired with a one-shot reply slot, so the
caller observes exactly one correlated reply — the first one delivered — or
an error; that single reply may carry several response items (one per
responding base node, as in the chain-metadata test), all of which are
returned together; an undelivered reply surfaces as an error. -/
theorem reply_channel_single_delivery
    (a : Except CommsInterfaceError (List NodeCommsResponse))
    (rest : List (Except CommsInterfaceError (List NodeCommsResponse)))
    (resps : List NodeCommsResponse) :
    get_metadata (a :: rest) = get_metadata [a] ∧
    get_metadata [Except.ok resps] = Except.ok (resps.filterMap extractMetadata) ∧
    get_metadata ([] : List (Except CommsInterfaceError (List NodeCommsResponse))) =
      Except.error .channelClosed := by
  refine ⟨?_, rfl, rfl⟩
  cases a <;> rfl

/-- C7: for every subscribed message kind, mapping the inbound stream through
the decoder keeps the stream position intact — the mapped stream has the same
length and the element at each position is the original sender paired with
the decode result of the original payload, so a decode failure is yielded as
an error variant at its position rather than dropped. -/
theorem stream_decode_result {μ : Type} (decode : List Nat → Except DecodeError μ)
    (msgs : List (DomainMessage (List Nat))) (i : Nat)
    (m : DomainMessage (List Nat)) (h : msgs[i]? = some m) :
    (map_decode decode msgs).length = msgs.length ∧
    (map_decode decode msgs)[i]? = some ⟨m.sender, decode m.payload⟩ := by
  constructor
  · simp [map_decode]
  · simp [map_decode, List.getElem?_map, h]

/-- C7 witness: in a stream of two raw messages whose first payload fails to
decode, the mapped stream still has two elements and position 0 holds the
sender 3 paired with the decode error. -/
theorem stream_decode_result_witness :
    (map_decode wDecode [⟨3, []⟩, ⟨4, [1, 2]⟩]).length =
      ([⟨3, []⟩, ⟨4, [1, 2]⟩] : List (DomainMessage (List Nat))).length ∧
    (map_decode wDecode [⟨3, []⟩, ⟨4, [1, 2]⟩])[0]? =
      some ⟨3, wDecode []⟩ :=
  stream_decode_result wDecode [⟨3, []⟩, ⟨4, [1, 2]⟩] 0 ⟨3, []⟩ (by decide)

/-- C8: in `TransactionServiceInitializer::initialize`, the service's own
handle is registered before any dependency handle is retrieved, and the DHT
outbound requester, output manager, key manager, connectivity and base-node
service handles — all five `expect_handle` retrievals that occur — are
retrieved before `TransactionService::start` runs. -/
theorem register_before_expect_before_start :
    initTrace.countP isExpectStep = 5 ∧
    initTrace.indexOf .registerHandle < initTrace.indexOf (.expectHandle .dht) ∧
    initTrace.indexOf .registerHandle < initTrace.indexOf (.expectHandle .outputManager) ∧
    initTrace.indexOf .registerHandle < initTrace.indexOf (.expectHandle .keyManager) ∧
    initTrace.indexOf .registerHandle < initTrace.indexOf (.expectHandle .connectivity) ∧
    initTrace.indexOf .registerHandle < initTrace.indexOf (.expectHandle .baseNodeService) ∧
    initTrace.indexOf (.expectHandle .dht) < initTrace.indexOf .startService ∧
    initTrace.indexOf (.expectHandle .outputManager) < initTrace.indexOf .startService ∧
    initTrace.indexOf (.expectHandle .keyManager) < initTrace.indexOf .startService ∧
    initTrace.indexOf (.expectHandle .connectivity) < initTrace.indexOf .startService ∧
    initTrace.indexOf (.expectHandle .baseNodeService) < initTrace.indexOf .startService ∧
    initTrace.indexOf .startService < initTrace.length := by
  decide

theorem keyFromBytes_keyToBytes (k : Nat) : keyFromBytes (keyToBytes k) = some k := by
  simp [keyFromBytes, keyToBytes, Nat.ofDigits_digits]

theorem tryConvertList_map {α β : Type} (f : β → Option α) (g : α → β)
    (hfg : ∀ x, f (g x) = some x) (l : List α) :
    tryConvertList f (l.map g) = some l := by
  induction l with
  | nil => rfl
  | cons x xs ih => simp [tryConvertList, hfg x, ih]

/-- C9: the mempool protobuf conversions round-trip — converting a
`Signature` to its protobuf form and back succeeds and returns the original
signature, and converting a `StateResponse` to protobuf and back succeeds
and returns a state response with the same `unconfirmed_pool` and
`reorg_pool` in the same order. -/
theorem mempool_proto_roundtrip (sig : Signature) (st : StateResponse) :
    signature_try_from (signature_to_proto sig) = some sig ∧
    state_response_try_from (state_response_to_proto st) = some st := by
  have hsig : ∀ s : Signature, signature_try_from (signature_to_proto s) = some s := by
    intro s
    simp [signature_try_from, signature_to_proto, keyFromBytes_keyToBytes]
  refine ⟨hsig sig, ?_⟩
  simp [state_response_try_from, state_response_to_proto,
    tryConvertList_map signature_try_from signature_to_proto hsig]

/-- C10: `ChatFFIMessage::try_from(message)` fails exactly when the body,
the byte form of the address, or the message id contains an interior NUL
byte (the cases in which `CString::new` fails), and on success the returned
struct's `stored_at` equals the input's `stored_at`. -/
theorem chat_ffi_try_from_spec (v : Message) :
    (chat_ffi_message_try_from v = none ↔
      0 ∈ v.body ∨ 0 ∈ v.addressBytes ∨ 0 ∈ v.message_id) ∧
    (∀ out : ChatFFIMessage,
      chat_ffi_message_try_from v = some out → out.stored_at = v.stored_at) := by
  constructor
  · by_cases h1 : 0 ∈ v.body <;> by_cases h2 : 0 ∈ v.addressBytes <;>
      by_cases h3 : 0 ∈ v.message_id <;>
      simp [chat_ffi_message_try_from, cstring_new, h1, h2, h3]
  · intro out hout
    by_cases h1 : 0 ∈ v.body <;> by_cases h2 : 0 ∈ v.addressBytes <;>
      by_cases h3 : 0 ∈ v.message_id <;>
      simp [chat_ffi_message_try_from, cstring_new, h1, h2, h3] at hout
    simp [← hout]

/-- C10 witness: the NUL-free message `wMsg` converts successfully to
`wFFIMsg`, whose `stored_at` equals `wMsg.stored_at`; the failure
characterization instantiated at `wMsg` is consistent with that success. -/
theorem chat_ffi_try_from_spec_witness :
    (chat_ffi_message_try_from wMsg = none ↔
      0 ∈ wMsg.body ∨ 0 ∈ wMsg.addressBytes ∨ 0 ∈ wMsg.message_id) ∧
    wFFIMsg.stored_at = wMsg.stored_at :=
  ⟨(chat_ffi_try_from_spec wMsg).1, (chat_ffi_try_from_spec wMsg).2 wFFIMsg (by decide)⟩

end Taiji
